import Mathlib

/-!
Verification of the Recurser iterative video-generation orchestrator.

The definitions below are a shallow embedding of `src/backend/app.py`:
the scoring functions of `AIDetectionService`, the single-video pipeline
`VideoGenerationService.generate_video` (with its TwelveLabs upload
outcomes), the iterative driver `VideoGenerationService.generate_iterative_video`,
and the logging helpers `log_progress` / `log_detailed`.  Python floats are
modelled as exact rationals, database rows as records, and the external
collaborators (Veo generation, TwelveLabs upload/search/analyze, Gemini
refinement) as per-iteration environment values describing what each call
returns.
-/

namespace Recurser

/-- Severity tag carried by an analysis finding (`low`/`medium`/`high`). -/
inductive Severity
  | low
  | medium
  | high
deriving DecidableEq

/-- One Marengo search hit ("AI indicator"), as consumed by
`_calculate_ai_detection_score`: only its confidence value matters there. -/
structure Indicator where
  confidence : ℚ
deriving DecidableEq

/-- One Pegasus analysis result ("finding"): free text read through the
`content` accessor plus the optional severity (absent severity defaults to
medium in the code). -/
structure Finding where
  content : String
  severity : Option Severity
deriving DecidableEq

/-- Character-list version of Python string prefix testing. -/
def prefixMatch : List Char → List Char → Bool
  | [], _ => true
  | _ :: _, [] => false
  | a :: as, b :: bs => a == b && prefixMatch as bs

/-- Character-list version of the Python `in` substring test. -/
def subMatch (needle : List Char) : List Char → Bool
  | [] => prefixMatch needle []
  | b :: bs => prefixMatch needle (b :: bs) || subMatch needle bs

/-- `strContainsSub hay needle` mirrors Python `needle in hay`. -/
def strContainsSub (hay needle : String) : Bool :=
  subMatch needle.data hay.data

/-- The fixed negative-quality vocabulary in `_calculate_quality_score`. -/
def qualityIssueTerms : List String :=
  ["poor quality", "low quality", "artificial", "synthetic",
   "rendering artifacts", "compression issues", "blurry",
   "inconsistent", "unnatural", "mechanical", "robotic"]

/-- The fixed positive-detection vocabulary in `_calculate_ai_detection_score`. -/
def aiIndicatorTerms : List String :=
  ["ai generated", "artificial", "synthetic", "generated by",
   "neural network", "machine learning", "deepfake", "fake",
   "unnatural", "robotic", "mechanical", "artificial intelligence"]

/-- A finding counts as a quality issue when its lowercased content contains
one of the negative-quality terms (the `any(issue in content ...)` test). -/
def isQualityIssue (f : Finding) : Bool :=
  qualityIssueTerms.any fun t => strContainsSub f.content.toLower t

/-- A finding counts as AI-indicating when its lowercased content contains one
of the positive-detection terms. -/
def isAiIndicating (f : Finding) : Bool :=
  aiIndicatorTerms.any fun t => strContainsSub f.content.toLower t

/-- `severity_weights.get(severity.lower(), 20)` with the getattr default
`medium`: high ↦ 30, medium ↦ 20, low ↦ 10, missing ↦ 20. -/
def severityWeight : Option Severity → ℚ
  | some .high => 30
  | some .medium => 20
  | some .low => 10
  | none => 20

/-- `AIDetectionService._calculate_quality_score`. -/
def calculate_quality_score (search_results : List Indicator)
    (analysis_results : List Finding) : ℚ :=
  if search_results.isEmpty && analysis_results.isEmpty then 100
  else
    let search_penalty : ℚ :=
      if search_results.isEmpty then 0 else min ((search_results.length : ℚ) * 3) 50
    let quality_issues : ℚ := ((analysis_results.filter isQualityIssue).length : ℚ)
    let analysis_penalty : ℚ :=
      if analysis_results.isEmpty then 0 else min (quality_issues * 8) 50
    max (100 - search_penalty - analysis_penalty) 0

/-- The search-confidence component of `_calculate_ai_detection_score`
(`min(total_confidence / len(search_results), 100)`, 0 when empty). -/
def searchScoreOf (search_results : List Indicator) : ℚ :=
  if search_results.isEmpty then 0
  else min (((search_results.map Indicator.confidence).sum) / (search_results.length : ℚ)) 100

/-- The severity component of `_calculate_ai_detection_score`: restricted to
AI-indicating findings, `min(total_severity / count, 100)`, 0 when none. -/
def analysisScoreOf (analysis_results : List Finding) : ℚ :=
  if analysis_results.isEmpty then 0
  else
    let ai_indicating := analysis_results.filter isAiIndicating
    if ai_indicating.isEmpty then 0
    else min ((ai_indicating.map fun f => severityWeight f.severity).sum / (ai_indicating.length : ℚ)) 100

/-- `AIDetectionService._calculate_ai_detection_score`. -/
def calculate_ai_detection_score (search_results : List Indicator)
    (analysis_results : List Finding) : ℚ :=
  if search_results.isEmpty && analysis_results.isEmpty then 0
  else
    let search_score := searchScoreOf search_results
    let analysis_score := analysisScoreOf analysis_results
    if search_score > 0 ∧ analysis_score > 0 then search_score * (7/10) + analysis_score * (3/10)
    else if search_score > 0 then search_score
    else if analysis_score > 0 then analysis_score
    else 0

/-- Average indicator confidence as the specification words it
(0 when there are no indicators). -/
def specIndicatorComponent (indicators : List Indicator) : ℚ :=
  if indicators = [] then 0
  else ((indicators.map Indicator.confidence).sum) / (indicators.length : ℚ)

/-- Severity-weighted average over vocabulary-matching findings as the
specification words it (0 when none match). -/
def specFindingComponent (findings : List Finding) : ℚ :=
  let matching := findings.filter isAiIndicating
  if matching = [] then 0
  else ((matching.map fun f => severityWeight f.severity).sum) / (matching.length : ℚ)

/-- Detection-score combination rule as the specification words it:
0.7/0.3 blend when both components are present (nonzero), a single present
component alone, otherwise 0. -/
def specDetectionScore (indicators : List Indicator) (findings : List Finding) : ℚ :=
  let ic := specIndicatorComponent indicators
  let fc := specFindingComponent findings
  if ic ≠ 0 ∧ fc ≠ 0 then ic * (7/10) + fc * (3/10)
  else if ic ≠ 0 then ic
  else if fc ≠ 0 then fc
  else 0

theorem sum_le_mul_length (l : List ℚ) (c : ℚ) (h : ∀ x ∈ l, x ≤ c) :
    l.sum ≤ (l.length : ℚ) * c := by
  induction l with
  | nil => simp
  | cons a t ih =>
      have ha := h a (List.mem_cons_self a t)
      have ht := ih fun x hx => h x (List.mem_cons_of_mem a hx)
      simp only [List.sum_cons, List.length_cons]
      push_cast
      nlinarith

theorem mul_length_le_sum (l : List ℚ) (c : ℚ) (h : ∀ x ∈ l, c ≤ x) :
    (l.length : ℚ) * c ≤ l.sum := by
  induction l with
  | nil => simp
  | cons a t ih =>
      have ha := h a (List.mem_cons_self a t)
      have ht := ih fun x hx => h x (List.mem_cons_of_mem a hx)
      simp only [List.sum_cons, List.length_cons]
      push_cast
      nlinarith

theorem severityWeight_pos (o : Option Severity) : 10 ≤ severityWeight o := by
  rcases o with _ | s
  · norm_num [severityWeight]
  · rcases s <;> norm_num [severityWeight]

theorem severityWeight_le (o : Option Severity) : severityWeight o ≤ 100 := by
  rcases o with _ | s
  · norm_num [severityWeight]
  · rcases s <;> norm_num [severityWeight]

theorem searchScoreOf_eq_spec (s : List Indicator)
    (h : ∀ i ∈ s, 0 ≤ i.confidence ∧ i.confidence ≤ 100) :
    searchScoreOf s = specIndicatorComponent s := by
  rcases s with _ | ⟨a, t⟩
  · simp [searchScoreOf, specIndicatorComponent]
  · have hlen : (0 : ℚ) < ((a :: t).length : ℚ) := by
      exact_mod_cast Nat.succ_pos t.length
    have hsum : ((a :: t).map Indicator.confidence).sum ≤ (((a :: t).length : ℚ)) * 100 := by
      have := sum_le_mul_length ((a :: t).map Indicator.confidence) 100 ?_
      · simpa using this
      · intro x hx
        rcases List.mem_map.mp hx with ⟨i, hi, rfl⟩
        exact (h i hi).2
    have havg : ((a :: t).map Indicator.confidence).sum / (((a :: t).length : ℚ)) ≤ 100 := by
      rw [div_le_iff₀ hlen]
      linarith
    simp only [searchScoreOf, specIndicatorComponent, List.isEmpty_cons, if_neg, Bool.false_eq_true,
      not_false_eq_true, reduceCtorEq, if_false]
    exact min_eq_left havg

theorem specIndicatorComponent_nonneg (s : List Indicator)
    (h : ∀ i ∈ s, 0 ≤ i.confidence ∧ i.confidence ≤ 100) :
    0 ≤ specIndicatorComponent s := by
  rcases s with _ | ⟨a, t⟩
  · simp [specIndicatorComponent]
  · have hlen : (0 : ℚ) < ((a :: t).length : ℚ) := by
      exact_mod_cast Nat.succ_pos t.length
    have hsum : (0 : ℚ) ≤ ((a :: t).map Indicator.confidence).sum := by
      have := mul_length_le_sum ((a :: t).map Indicator.confidence) 0 ?_
      · simpa using this
      · intro x hx
        rcases List.mem_map.mp hx with ⟨i, hi, rfl⟩
        exact (h i hi).1
    simp only [specIndicatorComponent, reduceCtorEq, if_false]
    exact div_nonneg hsum hlen.le

theorem analysisScoreOf_eq_spec (a : List Finding) :
    analysisScoreOf a = specFindingComponent a := by
  unfold analysisScoreOf specFindingComponent
  rcases ha : a.filter isAiIndicating with _ | ⟨f, t⟩
  · rcases a with _ | ⟨x, xs⟩
    · simp
    · simp [ha]
  · have hne : a ≠ [] := by
      intro h0
      rw [h0] at ha
      simp at ha
    have hlen : (0 : ℚ) < (((f :: t).length : ℚ)) := by
      exact_mod_cast Nat.succ_pos t.length
    have hsum : ((f :: t).map fun x => severityWeight x.severity).sum ≤ (((f :: t).length : ℚ)) * 100 := by
      have := sum_le_mul_length ((f :: t).map fun x => severityWeight x.severity) 100 ?_
      · simpa using this
      · intro x hx
        rcases List.mem_map.mp hx with ⟨g, _, rfl⟩
        exact severityWeight_le g.severity
    have havg : ((f :: t).map fun x => severityWeight x.severity).sum / (((f :: t).length : ℚ)) ≤ 100 := by
      rw [div_le_iff₀ hlen]
      linarith
    have haE : a.isEmpty = false := by
      rcases a with _ | ⟨x, xs⟩
      · simp at ha
      · simp
    simp only [haE, Bool.false_eq_true, if_false, ha, List.isEmpty_cons, reduceCtorEq]
    exact min_eq_left havg

theorem specFindingComponent_nonneg (a : List Finding) :
    0 ≤ specFindingComponent a := by
  unfold specFindingComponent
  rcases ha : a.filter isAiIndicating with _ | ⟨f, t⟩
  · simp
  · have hlen : (0 : ℚ) < (((f :: t).length : ℚ)) := by
      exact_mod_cast Nat.succ_pos t.length
    have hsum : (0 : ℚ) ≤ ((f :: t).map fun x => severityWeight x.severity).sum := by
      have := mul_length_le_sum ((f :: t).map fun x => severityWeight x.severity) 10 ?_
      · have h10 : (0 : ℚ) ≤ (((f :: t).length : ℚ)) * 10 := by positivity
        linarith
      · intro x hx
        rcases List.mem_map.mp hx with ⟨g, _, rfl⟩
        exact severityWeight_pos g.severity
    simp only [reduceCtorEq, if_false]
    exact div_nonneg hsum hlen.le

/-- C8: with both inputs empty, `_calculate_quality_score` returns exactly 100
and `_calculate_ai_detection_score` returns exactly 0. -/
theorem empty_input_scores :
    calculate_quality_score [] [] = 100 ∧ calculate_ai_detection_score [] [] = 0 := by
  constructor <;> rfl

/-- C2: for every indicator list and finding list, the quality score equals
`max (100 - min (3·count indicators) 50 - min (8·count quality-matching findings) 50) 0`. -/
theorem quality_score_formula (search_results : List Indicator)
    (analysis_results : List Finding) :
    calculate_quality_score search_results analysis_results =
      max (100 - min (3 * (search_results.length : ℚ)) 50
            - min (8 * ((analysis_results.filter isQualityIssue).length : ℚ)) 50) 0 := by
  rcases search_results with _ | ⟨i, is⟩ <;> rcases analysis_results with _ | ⟨f, fs⟩ <;>
    simp [calculate_quality_score, mul_comm]

/-- C3: under the data-model bound that every indicator confidence lies in
[0, 100], `_calculate_ai_detection_score` equals the specification's
combination rule: average indicator confidence and severity-weighted average
over vocabulary-matching findings, blended 0.7/0.3 when both are present,
a single present component used alone, 0 otherwise. -/
theorem detection_score_combination (search_results : List Indicator)
    (analysis_results : List Finding)
    (hconf : ∀ i ∈ search_results, 0 ≤ i.confidence ∧ i.confidence ≤ 100) :
    calculate_ai_detection_score search_results analysis_results =
      specDetectionScore search_results analysis_results := by
  have hs := searchScoreOf_eq_spec search_results hconf
  have ha := analysisScoreOf_eq_spec analysis_results
  have hsn := specIndicatorComponent_nonneg search_results hconf
  have han := specFindingComponent_nonneg analysis_results
  unfold calculate_ai_detection_score specDetectionScore
  rw [hs, ha]
  by_cases hE : search_results.isEmpty && analysis_results.isEmpty
  · have h1 : search_results = [] := by
      rcases search_results with _ | _
      · rfl
      · simp at hE
    have h2 : analysis_results = [] := by
      rcases analysis_results with _ | _
      · rfl
      · simp [h1] at hE
    subst h1
    subst h2
    simp [hE, specIndicatorComponent, specFindingComponent]
  · rw [if_neg hE]
    by_cases h1 : specIndicatorComponent search_results = 0 <;>
      by_cases h2 : specFindingComponent analysis_results = 0
    · simp [h1, h2]
    · have h2p : specFindingComponent analysis_results > 0 := lt_of_le_of_ne han (Ne.symm h2)
      simp [h1, h2, h2p]
    · have h1p : specIndicatorComponent search_results > 0 := lt_of_le_of_ne hsn (Ne.symm h1)
      simp [h1, h2, h1p]
    · have h1p : specIndicatorComponent search_results > 0 := lt_of_le_of_ne hsn (Ne.symm h1)
      have h2p : specFindingComponent analysis_results > 0 := lt_of_le_of_ne han (Ne.symm h2)
      simp [h1, h2, h1p, h2p]

/-- Witness for C3 at a concrete input exercising both components. -/
theorem detection_score_combination_witness :
    (∀ i ∈ [Indicator.mk 50], 0 ≤ i.confidence ∧ i.confidence ≤ 100) ∧
      calculate_ai_detection_score [Indicator.mk 50] [Finding.mk "looks fake" none] =
        specDetectionScore [Indicator.mk 50] [Finding.mk "looks fake" none] :=
  ⟨by decide, detection_score_combination _ _ (by decide)⟩

/-- The analysis outputs one round of Marengo search plus Pegasus analysis
produces (`_search_for_ai_indicators` and `_analyze_with_pegasus` results). -/
structure AnalysisOutput where
  search_results : List Indicator
  analysis_results : List Finding
deriving DecidableEq

/-- The dictionary returned by `AIDetectionService.detect_ai_generation`:
search results, analysis results and the quality score.  It carries no
`ai_detection_score` key. -/
structure DetectReturn where
  search_results : List Indicator
  analysis_results : List Finding
  quality_score : ℚ
deriving DecidableEq

/-- `AIDetectionService.detect_ai_generation` on its non-raising path. -/
def detect_ai_generation (a : AnalysisOutput) : DetectReturn :=
  { search_results := a.search_results
    analysis_results := a.analysis_results
    quality_score := calculate_quality_score a.search_results a.analysis_results }

/-- `ai_analysis.get('ai_detection_score', 100.0)` in `generate_video`: the
dictionary returned by `detect_ai_generation` has no such key, so the default
100.0 is always produced. -/
def getAiDetectionScore (_d : DetectReturn) : ℚ := 100

/-- Status strings written to the `videos.status` column. -/
inductive JobStatus
  | pending
  | generating
  | uploading
  | indexing
  | analyzing
  | completed
  | failed
deriving DecidableEq

/-- Outcome of the Veo generation phase of `generate_video`: either the
binary artifact is produced, or some call in that phase raises. -/
inductive GenOutcome
  | ok
  | fail (msg : String)
deriving DecidableEq

/-- Outcome of `upload_to_twelvelabs`: a TwelveLabs video id, the
`USAGE_LIMIT_EXCEEDED` marker (quota error message), or a re-raised error. -/
inductive UploadOutcome
  | ok (tlVideoId : String)
  | quota
  | err (msg : String)
deriving DecidableEq

/-- What the external collaborators do during one loop iteration. -/
structure IterEnv where
  genOutcome : GenOutcome
  uploadOutcome : UploadOutcome
  analysisFails : Bool
  analysis : AnalysisOutput
  videoPath : String
deriving DecidableEq

/-- The fields of one row of the `videos` table that the orchestrator reads
or writes (floats as exact rationals). -/
structure JobRec where
  dbStatus : JobStatus
  progress : Nat
  dbPath : Option String
  dbTlId : Option String
  dbConf : ℚ
  dbIterCount : Nat
  aiScore : ℚ
  aiConf : ℚ
  details : Option String
  errorMsg : Option String
deriving DecidableEq

/-- The `ai_detection_details` JSON written on the quota short-circuit. -/
def quotaDetailsMsg : String := "TwelveLabs usage limit reached - analysis skipped"

/-- Distinguishes the return paths of `generate_video`. -/
inductive GenerateVideoRet
  | quotaShortCircuit
  | zeroDetection
  | normal
  | failedRet
deriving DecidableEq

/-- `VideoGenerationService.generate_video`: the per-step database writes of
the single-video pipeline, driven by the collaborator outcomes in `e`.
Generation failure and upload errors land in the outer `except` handler,
which records `status = 'failed'` and the error message; the
`USAGE_LIMIT_EXCEEDED` marker triggers the quota short-circuit update. -/
def generate_video (e : IterEnv) (r : JobRec) : JobRec × GenerateVideoRet :=
  match e.genOutcome with
  | .fail msg =>
      ({ r with dbStatus := .failed, progress := 10, errorMsg := some msg }, .failedRet)
  | .ok =>
      let r1 := { r with dbStatus := .generating, progress := 10 }
      let r2 := { r1 with dbStatus := .uploading, progress := 50 }
      match e.uploadOutcome with
      | .err msg =>
          ({ r2 with dbStatus := .failed, errorMsg := some msg }, .failedRet)
      | .quota =>
          ({ r2 with dbStatus := .completed, progress := 100, dbPath := some e.videoPath,
                     aiScore := 0, aiConf := 0, details := some quotaDetailsMsg },
            .quotaShortCircuit)
      | .ok tlid =>
          let r3 := { r2 with dbTlId := some tlid }
          let r4 := { r3 with dbStatus := .analyzing, progress := 60, dbPath := some e.videoPath }
          if e.analysisFails then
            ({ r4 with dbStatus := .completed, progress := 100 }, .normal)
          else
            let d := detect_ai_generation e.analysis
            let ai := getAiDetectionScore d
            let r5 := { r4 with aiScore := ai, dbConf := max 0 (100 - ai) }
            if ai = 0 then
              ({ r5 with dbStatus := .completed, progress := 100 }, .zeroDetection)
            else
              ({ r5 with dbStatus := .completed, progress := 100 }, .normal)

/-- Local state of the `generate_iterative_video` loop: the database row,
the local `current_iteration` and `current_confidence` variables, plus the
observational record of which iterations ran generation / analysis and at
which iteration the success break (if any) fired. -/
structure LoopSt where
  row : JobRec
  iter : Nat
  conf : ℚ
  gens : List Nat
  analyses : List Nat
  success : Option Nat
deriving DecidableEq

/-- One pass of the `while` body of `generate_iterative_video`: call
`generate_video`, re-read `twelvelabs_video_id`, and if present run the AI
detection analysis; a quality score at or above the target updates the row
(`current_confidence`, `iteration_count`, `status = 'completed'`) and breaks,
otherwise the confidence and iteration counter advance and the post-increment
`current_confidence >= target_confidence` check runs.  Returns the new state
and whether the body executed `break`. -/
def loopBody (e : IterEnv) (target : ℚ) (st : LoopSt) : LoopSt × Bool :=
  let i := st.iter
  let r1 := (generate_video e st.row).1
  let st1 : LoopSt := { st with row := r1, gens := st.gens ++ [i] }
  match r1.dbTlId with
  | some _ =>
      if e.analysisFails then
        let st2 := { st1 with conf := 0, iter := i + 1 }
        if target ≤ st2.conf then (st2, true) else (st2, false)
      else
        let d := detect_ai_generation e.analysis
        let q := d.quality_score
        let st1a := { st1 with analyses := st1.analyses ++ [i] }
        if target ≤ q then
          let r2 := { r1 with dbConf := q, dbIterCount := i, dbStatus := .completed }
          ({ st1a with row := r2, conf := 100, success := some i }, true)
        else
          let r2 := { r1 with dbConf := q, dbIterCount := i }
          let st2 := { st1a with row := r2, conf := q, iter := i + 1 }
          if target ≤ st2.conf then (st2, true) else (st2, false)
  | none =>
      let st2 := { st1 with iter := i + 1 }
      if target ≤ st2.conf then (st2, true) else (st2, false)

/-- Fuel-indexed unfolding of the
`while current_iteration <= max_iterations and current_confidence < target_confidence`
loop; the driver always supplies enough fuel for the bounded iteration count. -/
def runLoop (env : Nat → IterEnv) (target : ℚ) (maxIter : Nat) : Nat → LoopSt → LoopSt
  | 0, st => st
  | fuel + 1, st =>
      if st.iter ≤ maxIter ∧ st.conf < target then
        let p := loopBody (env st.iter) target st
        if p.2 then p.1 else runLoop env target maxIter fuel p.1
      else st

/-- The row inserted by the `/api/videos/generate` endpoint: status
`pending`, progress 0, no video path, no TwelveLabs id, confidence 0,
`iteration_count = 1`. -/
def initJobRec : JobRec :=
  { dbStatus := .pending, progress := 0, dbPath := none, dbTlId := none,
    dbConf := 0, dbIterCount := 1, aiScore := 0, aiConf := 0,
    details := none, errorMsg := none }

/-- Initial loop state: `current_iteration = 1`, `current_confidence = 0.0`. -/
def initLoopSt : LoopSt :=
  { row := initJobRec, iter := 1, conf := 0, gens := [], analyses := [], success := none }

/-- `VideoGenerationService.generate_iterative_video`: run the bounded loop,
then perform the unconditional final update
`status = 'completed', progress = 100`. -/
def generate_iterative_video (env : Nat → IterEnv) (target : ℚ) (maxIter : Nat) : LoopSt :=
  let stF := runLoop env target maxIter (maxIter + 1) initLoopSt
  { stF with row := { stF.row with dbStatus := .completed, progress := 100 } }

/-- The TwelveLabs video id used by the happy-path environment. -/
def tlVideoIdConst : String := "tl-video"

/-- The artifact path used by the happy-path environment. -/
def vidPathConst : String := "uploads/video.mp4"

/-- Environment in which generation, upload and analysis all succeed and the
analysis of iteration `i` returns `ana i`. -/
def happyEnv (ana : Nat → AnalysisOutput) : Nat → IterEnv := fun i =>
  { genOutcome := .ok, uploadOutcome := .ok tlVideoIdConst, analysisFails := false,
    analysis := ana i, videoPath := vidPathConst }

/-- Quality score of one analysis output. -/
def qualOf (a : AnalysisOutput) : ℚ :=
  calculate_quality_score a.search_results a.analysis_results

theorem quality_score_nonneg (s : List Indicator) (a : List Finding) :
    0 ≤ calculate_quality_score s a := by
  unfold calculate_quality_score
  split
  · norm_num
  · exact le_max_right _ _

theorem generate_video_happy (ana : Nat → AnalysisOutput) (i : Nat) (r : JobRec) :
    generate_video (happyEnv ana i) r =
      ({ r with dbStatus := .completed, progress := 100, dbPath := some vidPathConst,
                dbTlId := some tlVideoIdConst, aiScore := 100, dbConf := 0 }, .normal) := by
  have h100 : ¬ ((100 : ℚ) = 0) := by norm_num
  simp only [generate_video, happyEnv, getAiDetectionScore, if_neg h100, Bool.false_eq_true,
    if_false]
  norm_num

theorem loopBody_happy (ana : Nat → AnalysisOutput) (target : ℚ) (st : LoopSt) :
    loopBody (happyEnv ana st.iter) target st =
      if target ≤ qualOf (ana st.iter) then
        (⟨{ st.row with
              dbStatus := .completed
              progress := 100
              dbPath := some vidPathConst
              dbTlId := some tlVideoIdConst
              aiScore := 100
              dbConf := qualOf (ana st.iter)
              dbIterCount := st.iter },
          st.iter, 100, st.gens ++ [st.iter], st.analyses ++ [st.iter], some st.iter⟩, true)
      else
        (⟨{ st.row with
              dbStatus := .completed
              progress := 100
              dbPath := some vidPathConst
              dbTlId := some tlVideoIdConst
              aiScore := 100
              dbConf := qualOf (ana st.iter)
              dbIterCount := st.iter },
          st.iter + 1, qualOf (ana st.iter), st.gens ++ [st.iter], st.analyses ++ [st.iter],
          st.success⟩, false) := by
  rw [loopBody, generate_video_happy]
  simp only [happyEnv, Bool.false_eq_true, if_false, detect_ai_generation, qualOf]
  split
  · rfl
  · next h =>
      simp only [if_neg h]

theorem runLoop_succ (env : Nat → IterEnv) (target : ℚ) (maxIter fuel : Nat) (st : LoopSt) :
    runLoop env target maxIter (fuel + 1) st =
      if st.iter ≤ maxIter ∧ st.conf < target then
        (if (loopBody (env st.iter) target st).2 then (loopBody (env st.iter) target st).1
         else runLoop env target maxIter fuel (loopBody (env st.iter) target st).1)
      else st := rfl

theorem runLoop_stop (env : Nat → IterEnv) (target : ℚ) (maxIter fuel : Nat) (st : LoopSt)
    (h : ¬ (st.iter ≤ maxIter ∧ st.conf < target)) :
    runLoop env target maxIter fuel st = st := by
  cases fuel with
  | zero => rfl
  | succ f => rw [runLoop_succ, if_neg h]

theorem runLoop_brk (env : Nat → IterEnv) (target : ℚ) (maxIter fuel : Nat) (st st2 : LoopSt)
    (hcond : st.iter ≤ maxIter ∧ st.conf < target)
    (hbody : loopBody (env st.iter) target st = (st2, true)) :
    runLoop env target maxIter (fuel + 1) st = st2 := by
  rw [runLoop_succ, if_pos hcond, hbody]
  rfl

theorem runLoop_cont (env : Nat → IterEnv) (target : ℚ) (maxIter fuel : Nat) (st st2 : LoopSt)
    (hcond : st.iter ≤ maxIter ∧ st.conf < target)
    (hbody : loopBody (env st.iter) target st = (st2, false)) :
    runLoop env target maxIter (fuel + 1) st =
      runLoop env target maxIter fuel st2 := by
  rw [runLoop_succ, if_pos hcond, hbody]
  rfl

theorem range'_single (s : Nat) : List.range' s 1 = [s] := rfl

theorem runLoop_below (ana : Nat → AnalysisOutput) (target : ℚ) (N : Nat) :
    ∀ fuel i st, st.iter = i → i ≤ N →
      (∀ j, i ≤ j → j ≤ N → qualOf (ana j) < target) →
      st.conf < target →
      N + 1 ≤ i + fuel →
      runLoop (happyEnv ana) target N fuel st =
        ⟨{ st.row with
              dbStatus := .completed
              progress := 100
              dbPath := some vidPathConst
              dbTlId := some tlVideoIdConst
              aiScore := 100
              dbConf := qualOf (ana N)
              dbIterCount := N },
          N + 1, qualOf (ana N),
          st.gens ++ List.range' i (N + 1 - i), st.analyses ++ List.range' i (N + 1 - i),
          st.success⟩ := by
  intro fuel
  induction fuel with
  | zero =>
      intro i st h1 h2 h3 h4 h5
      omega
  | succ f ih =>
      intro i st hsti hiN hq hconf hfuel
      subst hsti
      have hqi : qualOf (ana st.iter) < target := hq st.iter le_rfl hiN
      have hb := loopBody_happy ana target st
      rw [if_neg (not_le.mpr hqi)] at hb
      rw [runLoop_cont (happyEnv ana) target N f st _ ⟨hiN, hconf⟩ hb]
      by_cases hNi : st.iter = N
      · rw [runLoop_stop]
        · have hone : N + 1 - st.iter = 1 := by omega
          rw [hone, hNi, range'_single]
        · rintro ⟨hc, -⟩
          simp only at hc
          omega
      · have hlt : st.iter < N := lt_of_le_of_ne hiN hNi
        rw [ih (st.iter + 1) _ rfl (by omega) (fun j hj1 hj2 => hq j (by omega) hj2) hqi
          (by omega)]
        have h1 : N + 1 - st.iter = (N - st.iter) + 1 := by omega
        have h2 : N + 1 - (st.iter + 1) = N - st.iter := by omega
        simp only [h1, h2, List.range'_succ, List.append_assoc, List.singleton_append]

/-- C5: with `maxIterations = N ≥ 1` and every iteration's quality score below
the target, the driver performs exactly the iterations 1..N, the loop
terminates without a success break, and the job ends with
`status = 'completed'` (not failed) and the last computed score recorded in
`current_confidence`. -/
theorem budget_termination (ana : Nat → AnalysisOutput) (target : ℚ) (N : Nat)
    (hN : 1 ≤ N) (hq : ∀ j, 1 ≤ j → j ≤ N → qualOf (ana j) < target) :
    (generate_iterative_video (happyEnv ana) target N).gens = List.range' 1 N ∧
      (generate_iterative_video (happyEnv ana) target N).gens.length = N ∧
      (generate_iterative_video (happyEnv ana) target N).row.dbStatus = .completed ∧
      (generate_iterative_video (happyEnv ana) target N).row.dbConf = qualOf (ana N) ∧
      (generate_iterative_video (happyEnv ana) target N).row.errorMsg = none ∧
      (generate_iterative_video (happyEnv ana) target N).success = none := by
  have htpos : (0 : ℚ) < target :=
    lt_of_le_of_lt (quality_score_nonneg (ana 1).search_results (ana 1).analysis_results)
      (hq 1 le_rfl hN)
  have hrun := runLoop_below ana target N (N + 1) 1 initLoopSt rfl hN hq htpos (by omega)
  unfold generate_iterative_video
  rw [hrun]
  have hN1 : N + 1 - 1 = N := by omega
  rw [hN1]
  simp [initLoopSt, initJobRec]

theorem qual_single (i : Indicator) : qualOf ⟨[i], []⟩ = 97 := by
  show calculate_quality_score [i] [] = 97
  norm_num [calculate_quality_score, min_def, max_def]

/-- Witness for C5: one iteration whose quality score 97 stays below 98. -/
theorem budget_termination_witness :
    (∀ j, 1 ≤ j → j ≤ 1 → qualOf ((fun _ => ⟨[⟨0⟩], []⟩) j) < 98) ∧
      (generate_iterative_video (happyEnv fun _ => ⟨[⟨0⟩], []⟩) 98 1).gens.length = 1 ∧
      (generate_iterative_video (happyEnv fun _ => ⟨[⟨0⟩], []⟩) 98 1).row.dbStatus =
        .completed := by
  have hq : ∀ j, 1 ≤ j → j ≤ 1 → qualOf ((fun _ => (⟨[⟨0⟩], []⟩ : AnalysisOutput)) j) < 98 := by
    intro j h1 h2
    show qualOf ⟨[⟨0⟩], []⟩ < 98
    rw [qual_single]
    norm_num
  have h := budget_termination (fun _ => ⟨[⟨0⟩], []⟩) 98 1 le_rfl hq
  exact ⟨hq, h.2.1, h.2.2.1⟩

/-- C1 (amended): for every targetScore in (0, 100], a first iteration whose
analysis returns empty indicator and finding lists makes the job complete at
iteration 1 with `current_confidence = 100`; at targetScore = 0 the loop never
runs (see the counterexample). -/
theorem zero_indicator_success (ana : Nat → AnalysisOutput) (target : ℚ) (maxIter : Nat)
    (hma : 1 ≤ maxIter) (ht0 : 0 < target) (ht1 : target ≤ 100)
    (h1 : ana 1 = ⟨[], []⟩) :
    (generate_iterative_video (happyEnv ana) target maxIter).success = some 1 ∧
      (generate_iterative_video (happyEnv ana) target maxIter).gens = [1] ∧
      (generate_iterative_video (happyEnv ana) target maxIter).row.dbStatus = .completed ∧
      (generate_iterative_video (happyEnv ana) target maxIter).row.dbConf = 100 ∧
      (generate_iterative_video (happyEnv ana) target maxIter).row.dbIterCount = 1 := by
  have hq1 : qualOf (ana 1) = 100 := by
    rw [h1]
    rfl
  have hb := loopBody_happy ana target initLoopSt
  rw [if_pos (show target ≤ qualOf (ana initLoopSt.iter) from le_of_le_of_eq ht1 hq1.symm)]
    at hb
  unfold generate_iterative_video
  rw [runLoop_brk (happyEnv ana) target maxIter maxIter initLoopSt _ ⟨hma, ht0⟩ hb]
  simp [initLoopSt, initJobRec, hq1]

/-- Witness for C1 (amended) at targetScore = 50. -/
theorem zero_indicator_success_witness :
    ((0 : ℚ) < 50 ∧ (50 : ℚ) ≤ 100) ∧
      (generate_iterative_video (happyEnv fun _ => ⟨[], []⟩) 50 3).success = some 1 ∧
      (generate_iterative_video (happyEnv fun _ => ⟨[], []⟩) 50 3).row.dbConf = 100 := by
  have h := zero_indicator_success (fun _ => ⟨[], []⟩) 50 3 (by norm_num) (by norm_num)
    (by norm_num) rfl
  exact ⟨⟨by norm_num, by norm_num⟩, h.1, h.2.2.2.1⟩

/-- C1 counterexample: at targetScore = 0 — inside the claimed range [0, 100] —
the loop guard `current_confidence < target_confidence` is false at entry, so
the job completes with zero iterations and `current_confidence = 0`, not on
iteration 1 with score 100. -/
theorem zero_indicator_zero_target_cex :
    (generate_iterative_video (happyEnv fun _ => ⟨[], []⟩) 0 3).gens = [] ∧
      (generate_iterative_video (happyEnv fun _ => ⟨[], []⟩) 0 3).row.dbConf = 0 ∧
      (generate_iterative_video (happyEnv fun _ => ⟨[], []⟩) 0 3).success = none := by
  decide

/-- C4 (amended): in every loop iteration of `generate_iterative_video` whose
generation, upload and analysis succeed, the body breaks out of the loop with
a success record exactly when that iteration's quality score reaches the
target; the detection score `100 − detectionScore` is not consulted. -/
theorem threshold_rule_quality (ana : Nat → AnalysisOutput) (target : ℚ) (st : LoopSt) :
    ((loopBody (happyEnv ana st.iter) target st).2 = true ∧
        (loopBody (happyEnv ana st.iter) target st).1.success = some st.iter) ↔
      target ≤ qualOf (ana st.iter) := by
  rw [loopBody_happy]
  split
  · next h => simp [h]
  · next h => simp [h]

/-- C4 counterexample: one indicator of confidence 100 and no findings gives
detection score 100, hence `100 − detectionScore = 0 < 50 = targetScore`, yet
the orchestrator stops with success on iteration 1 because the quality score
97 meets the target. -/
theorem det_single_100 : calculate_ai_detection_score [⟨100⟩] [] = 100 := by
  norm_num [calculate_ai_detection_score, searchScoreOf, analysisScoreOf, min_def]

theorem threshold_rule_cex :
    ((generate_iterative_video (happyEnv fun _ => ⟨[⟨100⟩], []⟩) 50 2).success = some 1 ∧
        (generate_iterative_video (happyEnv fun _ => ⟨[⟨100⟩], []⟩) 50 2).row.dbStatus =
          .completed) ∧
      ¬ ((50 : ℚ) ≤ 100 - calculate_ai_detection_score [⟨100⟩] []) := by
  constructor
  · have hb := loopBody_happy (fun _ => ⟨[⟨100⟩], []⟩) 50 initLoopSt
    rw [if_pos (show (50 : ℚ) ≤
          qualOf ((fun _ => (⟨[⟨100⟩], []⟩ : AnalysisOutput)) initLoopSt.iter) from by
        show (50 : ℚ) ≤ qualOf ⟨[⟨100⟩], []⟩
        rw [qual_single]
        norm_num)] at hb
    unfold generate_iterative_video
    rw [runLoop_brk (happyEnv fun _ => ⟨[⟨100⟩], []⟩) 50 2 2 initLoopSt _
      ⟨by decide, by decide⟩ hb]
    exact ⟨rfl, rfl⟩
  · rw [det_single_100]
    norm_num

/-- Environment in which the Veo generation phase raises on every attempt. -/
def failEnv (msg : String) : Nat → IterEnv := fun _ =>
  { genOutcome := .fail msg, uploadOutcome := .err msg, analysisFails := false,
    analysis := ⟨[], []⟩, videoPath := vidPathConst }

/-- C6 (code-bug evidence): when generation raises on every attempt,
`generate_video` does record `status = 'failed'` with the error message, but
the iterative driver keeps looping for all `maxIterations` attempts (here 2,
not 1) and its unconditional final update overwrites the status with
`'completed'`, so the Failed state is not final. -/
theorem fatal_generation_end_state :
    ((generate_video (failEnv "Veo generation error" 1) initJobRec).1.dbStatus = .failed ∧
        (generate_video (failEnv "Veo generation error" 1) initJobRec).1.errorMsg =
          some "Veo generation error") ∧
      (generate_iterative_video (failEnv "Veo generation error") 90 2).gens = [1, 2] ∧
      (generate_iterative_video (failEnv "Veo generation error") 90 2).row.dbStatus =
        .completed ∧
      (generate_iterative_video (failEnv "Veo generation error") 90 2).row.errorMsg =
        some "Veo generation error" ∧
      (generate_iterative_video (failEnv "Veo generation error") 90 2).success = none := by
  decide

/-- C10: with `targetScore ≤ 0` the loop guard is false at entry, so no
generation, indexing or analysis happens, the record keeps no video path and
confidence 0, and the final update reports the job `'completed'`. -/
theorem zero_target_no_iterations (env : Nat → IterEnv) (target : ℚ) (maxIter : Nat)
    (ht : target ≤ 0) :
    (generate_iterative_video env target maxIter).gens = [] ∧
      (generate_iterative_video env target maxIter).analyses = [] ∧
      (generate_iterative_video env target maxIter).row.dbStatus = .completed ∧
      (generate_iterative_video env target maxIter).row.progress = 100 ∧
      (generate_iterative_video env target maxIter).row.dbPath = none ∧
      (generate_iterative_video env target maxIter).row.dbConf = 0 ∧
      (generate_iterative_video env target maxIter).success = none := by
  have hstop : ¬ (initLoopSt.iter ≤ maxIter ∧ initLoopSt.conf < target) := by
    rintro ⟨-, hc⟩
    simp only [initLoopSt] at hc
    exact absurd (hc.trans_le ht) (lt_irrefl 0)
  unfold generate_iterative_video
  rw [runLoop_stop _ _ _ _ _ hstop]
  exact ⟨rfl, rfl, rfl, rfl, rfl, rfl, rfl⟩

/-- Witness for C10 at targetScore = 0. -/
theorem zero_target_no_iterations_witness :
    ((0 : ℚ) ≤ 0) ∧
      (generate_iterative_video (happyEnv fun _ => ⟨[⟨90⟩], []⟩) 0 3).gens = [] ∧
      (generate_iterative_video (happyEnv fun _ => ⟨[⟨90⟩], []⟩) 0 3).row.dbPath = none := by
  have h := zero_target_no_iterations (happyEnv fun _ => ⟨[⟨90⟩], []⟩) 0 3 le_rfl
  exact ⟨le_rfl, h.1, h.2.2.2.2.1⟩

/-- C7: when the TwelveLabs upload reports quota exhaustion,
`generate_video` immediately marks the job completed, keeps the generated
artifact's path on the record, zeroes both analysis score fields, stores the
details text that explicitly says analysis was skipped, and returns without
running analysis. -/
theorem quota_soft_landing (e : IterEnv) (r : JobRec)
    (hg : e.genOutcome = .ok) (hu : e.uploadOutcome = .quota) :
    (generate_video e r).1.dbStatus = .completed ∧
      (generate_video e r).1.progress = 100 ∧
      (generate_video e r).1.dbPath = some e.videoPath ∧
      (generate_video e r).1.aiScore = 0 ∧
      (generate_video e r).1.aiConf = 0 ∧
      (generate_video e r).1.details = some quotaDetailsMsg ∧
      (generate_video e r).2 = .quotaShortCircuit ∧
      strContainsSub quotaDetailsMsg "analysis skipped" = true := by
  rcases e with ⟨go, uo, af, an, vp⟩
  simp only at hg hu
  subst hg
  subst hu
  refine ⟨rfl, rfl, rfl, rfl, rfl, rfl, rfl, ?_⟩
  decide

/-- One observable effect of the logging helpers: writing to the server
console, appending to the in-memory `progress_logs`, pushing the entry onto
one SSE subscriber queue, or appending to the durable `detailed_logs` column. -/
inductive LogEffect
  | consoleLog (entry : String)
  | memAppend (entry : String)
  | sseSend (client : Nat) (entry : String)
  | dbAppend (entry : String)
deriving DecidableEq

/-- Entry formatting of `log_detailed` (level markers elided to ASCII). -/
def formatDetailedEntry (ts msg level : String) : String :=
  if level = "ERROR" then "[" ++ ts ++ "] X " ++ msg
  else if level = "WARNING" then "[" ++ ts ++ "] ! " ++ msg
  else if level = "SUCCESS" then "[" ++ ts ++ "] + " ++ msg
  else "[" ++ ts ++ "] i " ++ msg

/-- Effect sequence of `log_detailed`, in source order: console log, in-memory
append, broadcast to every connected SSE client queue, then the database
append of `detailed_logs`. -/
def log_detailed_trace (numClients : Nat) (ts msg level : String) : List LogEffect :=
  let entry := formatDetailedEntry ts msg level
  [.consoleLog entry, .memAppend entry]
    ++ (List.range numClients).map (fun c => .sseSend c entry)
    ++ [.dbAppend entry]

/-- Effect sequence of `log_progress`, in source order: in-memory append,
database append, console log.  It never broadcasts to SSE subscribers. -/
def log_progress_trace (ts msg : String) : List LogEffect :=
  let entry := "[" ++ ts ++ "] " ++ msg
  [.memAppend entry, .dbAppend entry, .consoleLog entry]

/-- Tests whether an effect is a delivery to a live SSE subscriber. -/
def isSseSend : LogEffect → Bool
  | .sseSend _ _ => true
  | _ => false

/-- Tests whether an effect is the durable database append. -/
def isDbAppend : LogEffect → Bool
  | .dbAppend _ => true
  | _ => false

/-- The persist-before-publish property claimed by the specification: every
delivery to a live subscriber is preceded by a durable append. -/
def persistBeforePublish (t : List LogEffect) : Prop :=
  ∀ i : Fin t.length, isSseSend (t.get i) = true →
    ∃ j : Fin t.length, (j : Nat) < (i : Nat) ∧ isDbAppend (t.get j) = true

/-- C9 counterexample: with one connected subscriber, `log_detailed` delivers
the event to the subscriber's queue before the durable database append, so
the claimed persist-before-publish ordering fails. -/
theorem persist_before_publish_cex :
    ¬ persistBeforePublish (log_detailed_trace 1 "12:00:00" "upload complete" "INFO") := by
  unfold persistBeforePublish
  decide

theorem front_no_dbAppend (n : Nat) (e : String) :
    ∀ x ∈ ([LogEffect.consoleLog e, LogEffect.memAppend e]
        ++ (List.range n).map (fun c => LogEffect.sseSend c e)), isDbAppend x = false := by
  intro x hx
  simp only [List.mem_append, List.mem_cons, List.mem_map, List.not_mem_nil, or_false] at hx
  rcases hx with (h | h) | ⟨c, hc, h⟩ <;> subst h <;> rfl

theorem sse_before_db_of_concat (l : List LogEffect) (a : LogEffect)
    (hl : ∀ x ∈ l, isDbAppend x = false) (ha : isSseSend a = false) :
    ∀ i j, ∀ hi : i < (l ++ [a]).length, ∀ hj : j < (l ++ [a]).length,
      isSseSend ((l ++ [a]).get ⟨i, hi⟩) = true →
      isDbAppend ((l ++ [a]).get ⟨j, hj⟩) = true → i < j := by
  intro i j hi hj hsse hdb
  have hlen : (l ++ [a]).length = l.length + 1 := by simp
  have hjl : j = l.length := by
    by_contra hne
    have hjlt : j < l.length := by omega
    have : (l ++ [a]).get ⟨j, hj⟩ = l.get ⟨j, hjlt⟩ := by
      simp [List.get_eq_getElem, List.getElem_append_left hjlt]
    rw [this] at hdb
    exact absurd hdb (by rw [hl (l.get ⟨j, hjlt⟩) (l.get_mem _ _)]; exact Bool.false_ne_true)
  have hil : i ≠ l.length := by
    intro hileq
    have : (l ++ [a]).get ⟨i, hi⟩ = a := by
      simp [List.get_eq_getElem, hileq]
    rw [this] at hsse
    exact absurd hsse (by rw [ha]; exact Bool.false_ne_true)
  omega

/-- C9 (amended): in `log_detailed`, delivery to every live subscriber
strictly precedes the durable database append — the reverse of the
specification's persist-before-publish requirement; `log_progress` persists
without broadcasting at all. -/
theorem publish_precedes_persist (n : Nat) (ts msg level : String) :
    (∀ i j, ∀ hi : i < (log_detailed_trace n ts msg level).length,
        ∀ hj : j < (log_detailed_trace n ts msg level).length,
        isSseSend ((log_detailed_trace n ts msg level).get ⟨i, hi⟩) = true →
        isDbAppend ((log_detailed_trace n ts msg level).get ⟨j, hj⟩) = true → i < j) ∧
      (∀ x ∈ log_progress_trace ts msg, isSseSend x = false) := by
  constructor
  · rw [show log_detailed_trace n ts msg level =
        ([LogEffect.consoleLog (formatDetailedEntry ts msg level),
          LogEffect.memAppend (formatDetailedEntry ts msg level)]
            ++ (List.range n).map (fun c => LogEffect.sseSend c (formatDetailedEntry ts msg level)))
          ++ [LogEffect.dbAppend (formatDetailedEntry ts msg level)] from by
      simp [log_detailed_trace]]
    exact sse_before_db_of_concat _ _ (front_no_dbAppend n _) rfl
  · intro x hx
    simp only [log_progress_trace, List.mem_cons, List.not_mem_nil, or_false] at hx
    rcases hx with h | h | h <;> rw [h] <;> rfl

/-- Witness for C9 (amended): one subscriber, the delivery at index 2 and the
durable append at index 3. -/
theorem publish_precedes_persist_witness :
    isSseSend ((log_detailed_trace 1 "12:00:00" "hello" "INFO").get ⟨2, by decide⟩) = true ∧
      isDbAppend ((log_detailed_trace 1 "12:00:00" "hello" "INFO").get ⟨3, by decide⟩) = true ∧
      2 < 3 := by
  refine ⟨by decide, by decide, ?_⟩
  exact (publish_precedes_persist 1 "12:00:00" "hello" "INFO").1 2 3 (by decide) (by decide)
    (by decide) (by decide)

/-- Witness for C7 at a concrete environment and row. -/
theorem quota_soft_landing_witness :
    (IterEnv.mk .ok .quota false ⟨[], []⟩ "uploads/v1.mp4").uploadOutcome = .quota ∧
      (generate_video (IterEnv.mk .ok .quota false ⟨[], []⟩ "uploads/v1.mp4") initJobRec).1.dbStatus
          = .completed ∧
      (generate_video (IterEnv.mk .ok .quota false ⟨[], []⟩ "uploads/v1.mp4") initJobRec).1.dbPath
          = some "uploads/v1.mp4" := by
  have h := quota_soft_landing (IterEnv.mk .ok .quota false ⟨[], []⟩ "uploads/v1.mp4")
    initJobRec rfl rfl
  exact ⟨rfl, h.1, h.2.2.1⟩

end Recurser
